import Mathlib

/-!
Verification of the TestRail-to-Jira/Zephyr CSV converter
(`src/transformer.py`, `src/validator.py`).

The pandas `DataFrame` is shallowly embedded as an ordered list of named
columns together with an explicit row-index length `nidx`.  A cell is
`Option String`: `none` models a missing value (`NaN`), `some s` a scalar
(all CSV scalars are modelled as strings; what pandas prints for a missing
value under `str(...)` is `"nan"`, see `cellStr`).

Two pieces of pandas behaviour are modelled explicitly because the code
relies on them:

* column assignment `df[name] = value` overwrites an existing column in
  place (keeping its position) and appends a new column otherwise
  (`replaceCol`);
* assigning a non-empty Series to a frame whose row index is still empty
  re-creates the index from the Series and re-indexes every existing
  column, filling it with `NaN` (pandas `DataFrame._ensure_valid_index`,
  GH5632); assigning a scalar broadcasts it over the *current* index
  (`setScalar`, `setSeries`).

Diagnostics (`self.errors` / `self.warnings` strings built with f-strings
in the source) are embedded as a structured inductive `VMsg`, one
constructor per message, carrying exactly the data interpolated into the
corresponding f-string.
-/

/-- A cell of a table: `none` is a missing value (pandas `NaN`). -/
abbrev Cell := Option String

/-- `str(x)` as applied by `astype(str)`: a missing value prints as `"nan"`. -/
def cellStr (c : Cell) : String :=
  match c with
  | none => "nan"
  | some s => s

/-- A pandas `DataFrame`: named columns in order, plus the length of the
row index.  (`pd.DataFrame()` is `⟨[], 0⟩`.) -/
structure Table where
  cols : List (String × List Cell)
  nidx : Nat
  deriving DecidableEq, Repr

/-- Column names in order (`df.columns`). -/
def Table.colNames (t : Table) : List String :=
  t.cols.map Prod.fst

/-- First column with the given name (`df[name]` for a frame without
duplicate column names). -/
def findCol : List (String × List Cell) → String → Option (List Cell)
  | [], _ => none
  | c :: cs, n => if c.1 = n then some c.2 else findCol cs n

def Table.getCol? (t : Table) (n : String) : Option (List Cell) :=
  findCol t.cols n

/-- `name in df.columns`. -/
def Table.hasCol (t : Table) (n : String) : Bool :=
  (t.getCol? n).isSome

/-- Well-formed frame: distinct column names (a pandas frame with duplicated
names makes `df[name]` a DataFrame and the validators raise on it) and
tabular regularity (every column has `nidx` cells). -/
def Table.WF (t : Table) : Prop :=
  t.colNames.Nodup ∧ ∀ c ∈ t.cols, c.2.length = t.nidx

instance (t : Table) : Decidable t.WF := by
  unfold Table.WF; infer_instance

/-- `df.empty`: true when either axis has length zero. -/
def Table.isEmptyT (t : Table) : Bool :=
  t.nidx == 0 || t.cols.isEmpty

/-- `df[name] = value` for an existing/new column: overwrite the first
column with that name in place, else append. -/
def replaceCol : List (String × List Cell) → String → List Cell → List (String × List Cell)
  | [], n, vs => [(n, vs)]
  | c :: cs, n, vs => if c.1 = n then (n, vs) :: cs else c :: replaceCol cs n vs

/-- Re-indexing every existing column over a fresh index of length `len`,
filled with `NaN` (pandas `_ensure_valid_index`). -/
def reindexAll (cols : List (String × List Cell)) (len : Nat) : List (String × List Cell) :=
  cols.map (fun c => (c.1, List.replicate len (none : Cell)))

/-- `df[name] = scalar`: broadcast over the current row index. -/
def Table.setScalar (t : Table) (n : String) (v : String) : Table :=
  ⟨replaceCol t.cols n (List.replicate t.nidx (some v)), t.nidx⟩

/-- `df[name] = series`: if the frame still has an empty row index and the
series is non-empty, the index is created from the series and all existing
columns are re-indexed to `NaN`; otherwise plain aligned assignment. -/
def Table.setSeries (t : Table) (n : String) (vs : List Cell) : Table :=
  if t.nidx = 0 ∧ vs ≠ [] then
    ⟨replaceCol (reindexAll t.cols vs.length) n vs, vs.length⟩
  else
    ⟨replaceCol t.cols n vs, t.nidx⟩

/-- Association-list lookup, first match (a JSON-object config has unique
keys, so this is dict lookup). -/
def alookup {α : Type} : List (String × α) → String → Option α
  | [], _ => none
  | (k, v) :: rest, n => if k = n then some v else alookup rest n

/-- The optional `validation_rules` part of a configuration; an absent key
behaves as the defaults recorded here via `.getD`/`[]`. -/
structure ValidationRules where
  allowed_priorities : List String
  max_summary_length : Option Nat
  max_description_length : Option Nat
  required_issue_types : List String
  deriving DecidableEq, Repr

/-- The configuration structure of `_load_config`. -/
structure Config where
  column_mappings : List (String × String)
  static_values : List (String × String)
  transformations : List (String × String)
  required_fields : List String
  jira_fields : List String
  validation_rules : ValidationRules
  deriving DecidableEq, Repr

/-- The built-in default configuration of `CSVTransformer._load_config`. -/
def defaultConfig : Config :=
  { column_mappings := [("Summary", "Title"), ("Issue Type", "Test"),
      ("Priority", "Priority"), ("Component", "Section"),
      ("Description", "Preconditions")]
    static_values := [("Issue Type", "Test"), ("Project Key", "PROJ")]
    transformations := [("Priority", "priority_mapping"), ("Component", "extract_component")]
    required_fields := ["Summary", "Issue Type"]
    jira_fields := ["Summary", "Issue Type", "Priority", "Component",
      "Description", "Project Key", "Labels"]
    validation_rules := ⟨[], none, none, []⟩ }

/-- Structured diagnostics: one constructor per f-string appended to
`self.errors` / `self.warnings` in the source, carrying the interpolated
data. -/
inductive VMsg where
  | missingExpectedColumns (cols : List String)
  | rowsHaveEmpty (count : Nat) (field : String)
  | sourceColumnMissing (src dst : String)
  | rowsMissingRequired (count : Nat) (field : String)
  | emptyTable
  | noColumns
  | duplicateColumns (cols : List String)
  | emptyColumns (cols : List String)
  | expectedColumnsNotFound (cols : List String)
  | invalidEmails (column : String) (count : Nat)
  | badDateFormat (column : String) (value : String)
  | invalidPriorities (column : String) (values : List String)
  | largeDataset (rows : Nat)
  | duplicateTitles (count : Nat)
  | requiredMissing (field : String)
  | requiredEmpty (field : String) (count : Nat)
  | summariesTooLong (count maxLen : Nat)
  | descriptionsTooLong (count maxLen : Nat)
  | invalidIssueTypes (allowed : List String)
  | invalidProjectKey (key : String)
  | emptyRows (count : Nat)
  | mostlyEmptyColumn (column : String) (missing total : Nat)
  | specialCharacters (column : String) (count : Nat)
  deriving DecidableEq, Repr

/-- Exceptions that abort a `transform` call and are turned into a
`success: False` result: the empty-input `ValueError`, the
`AttributeError` of `getattr(self, name)` on a name resolving to no
attribute, and an exception raised inside the element-wise application of
a resolved attribute (a `TypeError` from a non-callable or
wrongly-arified attribute, `Path(nan)`, …). -/
inductive TError where
  | emptyInput
  | unknownTransformation (name : String)
  | applyRaised (name : String)
  deriving DecidableEq, Repr

/-! ## Transformation functions (`CSVTransformer` methods) -/

/-- Python `str.lower()` on ASCII text (character-wise lowering; defined
over the character list so that it reduces in the kernel). -/
def strLower (s : String) : String :=
  String.mk (s.data.map Char.toLower)

/-- Decimal value of a digit string (`int(s)` for an all-digit `s`;
defined over the character list so that it reduces in the kernel). -/
def digitsToNat (l : List Char) : Nat :=
  l.foldl (fun n c => n * 10 + (c.toNat - '0'.toNat)) 0

def priority_map : List (String × String) :=
  [("1", "Low"), ("2", "Medium"), ("3", "High"), ("4", "Highest"),
   ("low", "Low"), ("medium", "Medium"), ("high", "High"), ("critical", "Highest")]

/-- `CSVTransformer.priority_mapping`. -/
def priority_mapping (priority : Cell) : String :=
  match priority with
  | none => "Medium"
  | some p => (alookup priority_map (strLower p)).getD "Medium"

/-- Substring test (`needle in hay` on Python strings). -/
def strContainsAux (needle : List Char) : List Char → Bool
  | [] => needle.isEmpty
  | c :: t => needle.isPrefixOf (c :: t) || strContainsAux needle t

def strContains (hay needle : String) : Bool :=
  strContainsAux needle.data hay.data

/-- `CSVTransformer.extract_component`. -/
def extract_component (sec : Cell) : String :=
  match sec with
  | none => ""
  | some s => if strContains s " > " then (s.splitOn " > ").headD s else s

/-- `CSVTransformer.generate_labels` on the scalar a `Series.apply` hands
it: for a plain string the `"Section" in row` membership test is a
substring test, so the section branch never produces a label and the
result is `"manual-test"`.  (The inputs on which the source raises — a
missing value, or a string containing `"Section"` — are handled in
`attrApply`.) -/
def generate_labels (_row : Cell) : String :=
  "manual-test"

/-- The names `getattr(self, name)` resolves on a `CSVTransformer`
instance: the methods of the class, the instance attributes assigned in
`__init__`, and the attributes inherited from `object`.  `getattr` raises
`AttributeError` exactly for a name outside this list.  The inherited part
is a deliberate superset across CPython versions (`__firstlineno__`,
`__getstate__`, `__static_attributes__`, …): listing a name in excess only
narrows theorems whose hypothesis is non-membership, whereas omitting a
resolvable name would wrongly model a resolution as a raise. -/
def transformerAttrs : List String :=
  ["transform", "_setup_logging", "_load_config", "_validate_input",
   "_apply_transformations", "_validate_output", "_show_preview",
   "priority_mapping", "extract_component", "generate_labels",
   "logger", "config", "errors", "warnings",
   "__annotations__", "__class__", "__delattr__", "__dict__", "__dir__",
   "__doc__", "__eq__", "__firstlineno__", "__format__", "__ge__",
   "__getattribute__", "__getstate__", "__gt__", "__hash__", "__init__",
   "__init_subclass__", "__le__", "__lt__", "__module__", "__ne__",
   "__new__", "__reduce__", "__reduce_ex__", "__repr__", "__setattr__",
   "__sizeof__", "__static_attributes__", "__str__", "__subclasshook__",
   "__weakref__"]

/-- The cell a non-scalar Python object lands in when a resolved
non-transformation attribute returns one (a configuration dict from
`_load_config`, a fresh transformer from `__class__`, `NotImplemented`
from a comparison dunder, `str(self)` from `__format__`, an attribute
object from `__getattribute__`): an opaque marker that no modelled
observation — success flag, row statistics, column names, diagnostics —
ever reads. -/
def objCell : Cell :=
  some "<object>"

/-- One cell under `Series.apply(getattr(self, name))` for a resolved
`name`: `none` when that application raises, `some c` when it returns the
value modelled by `c`.  Beyond the three transformation functions:

* `_load_config(v)` returns a configuration dict for any string `v` (a
  non-existent path falls back to the defaults; a path that exists is
  read inside `try` and still returns) and raises `TypeError` on `NaN`
  (`Path(nan)` inside the truthiness guard);
* `__init__(v)` behaves like `_load_config` on its path argument and
  returns `None` — a missing cell (its side effect of re-assigning
  `self.config` is not modelled; no claim dispatches to it);
* `__class__(v)` constructs a transformer, same raise condition;
* the comparison dunders and `__subclasshook__` return `NotImplemented`
  for every argument;
* `__format__` returns `str(self)` only for the empty format spec;
* `__getattribute__(v)` returns the named attribute when `v` names one;
* every other resolved attribute raises on every cell: the remaining
  methods require arguments a scalar cannot satisfy or call DataFrame
  methods on it, the instance attributes are not callable, the remaining
  dunders reject the extra argument (`__delattr__` can succeed on a cell
  naming an instance attribute, but every such deletion removes an
  attribute — `logger`, `config`, `errors`, `warnings` — that the rest of
  the call dereferences, so the call fails either way; the raise is
  modelled at application time). -/
def attrApply : String → Cell → Option Cell
  | "priority_mapping", c => some (some (priority_mapping c))
  | "extract_component", c => some (some (extract_component c))
  | "generate_labels", c =>
    (match c with
     | none => none
     | some s => if strContains s "Section" then none else some (some (generate_labels c)))
  | "_load_config", c => (match c with | none => none | some _ => some objCell)
  | "__init__", c => (match c with | none => none | some _ => some none)
  | "__class__", c => (match c with | none => none | some _ => some objCell)
  | "__eq__", _ => some objCell
  | "__ne__", _ => some objCell
  | "__le__", _ => some objCell
  | "__lt__", _ => some objCell
  | "__ge__", _ => some objCell
  | "__gt__", _ => some objCell
  | "__subclasshook__", _ => some objCell
  | "__format__", c => (match c with | some "" => some objCell | _ => none)
  | "__getattribute__", c =>
    (match c with
     | some s => if transformerAttrs.contains s then some objCell else none
     | none => none)
  | _, _ => none

/-- `series.apply(f)` over the cells of a column: `some` of the resulting
cells when every application returns, `none` when one raises (pandas
propagates the first exception). -/
def mapMo {α β : Type} (f : α → Option β) : List α → Option (List β)
  | [] => some []
  | a :: l =>
    match f a, mapMo f l with
    | some b, some l' => some (b :: l')
    | _, _ => none

/-! ## `_apply_transformations` -/

/-- One iteration of the `for jira_field in self.config["jira_fields"]`
loop of `_apply_transformations`: static value, else mapped column (with
optional named transformation; a missing source column degrades to an
empty fill plus a warning), else empty fill.  The transformation dispatch
mirrors `getattr(self, transform_func)` followed by `.apply`: a name
outside `transformerAttrs` raises `AttributeError` at `getattr`; a
resolved attribute is applied cell-wise and the first raising cell aborts
the call.  Either raise carries the warnings accumulated so far. -/
def applyField (cfg : Config) (df : Table) (r : Table) (w : List VMsg) (jf : String) :
    Except (TError × List VMsg) (Table × List VMsg) :=
  match alookup cfg.static_values jf with
  | some lit => .ok (r.setScalar jf lit, w)
  | none =>
    match alookup cfg.column_mappings jf with
    | some tf =>
      match df.getCol? tf with
      | some vs =>
        let r1 := r.setSeries jf vs
        match alookup cfg.transformations jf with
        | some fname =>
          if transformerAttrs.contains fname then
            match mapMo (attrApply fname) ((r1.getCol? jf).getD []) with
            | some vs' => .ok (r1.setSeries jf vs', w)
            | none => .error (.applyRaised fname, w)
          else .error (.unknownTransformation fname, w)
        | none => .ok (r1, w)
      | none => .ok (r.setScalar jf "", w ++ [.sourceColumnMissing tf jf])
    | none => .ok (r.setScalar jf "", w)

def applyFields (cfg : Config) (df : Table) : List String → Table → List VMsg →
    Except (TError × List VMsg) (Table × List VMsg)
  | [], r, w => .ok (r, w)
  | jf :: rest, r, w =>
    match applyField cfg df r w jf with
    | .ok (r', w') => applyFields cfg df rest r' w'
    | .error e => .error e

/-- `CSVTransformer._apply_transformations`: fold the loop over
`jira_fields` starting from `pd.DataFrame()`. -/
def applyTransformations (cfg : Config) (df : Table) :
    Except (TError × List VMsg) (Table × List VMsg) :=
  applyFields cfg df cfg.jira_fields ⟨[], 0⟩ []

/-- Whether `_apply_transformations` returns normally. -/
def applyOk (cfg : Config) (df : Table) : Bool :=
  match applyTransformations cfg df with
  | .ok _ => true
  | .error _ => false

/-- The in-memory output table of a completed `_apply_transformations`
call (junk on the error path). -/
def outTable (cfg : Config) (df : Table) : Table :=
  match applyTransformations cfg df with
  | .ok (rt, _) => rt
  | .error _ => ⟨[], 0⟩

/-! ## `transform` -/

/-- Count of missing values in a column (`series.isna().sum()`). -/
def naCount (t : Table) (n : String) : Nat :=
  ((t.getCol? n).getD []).countP (fun c => c.isNone)

/-- Count of empty-string values in a column (`(series == "").sum()`;
`NaN == ""` is false). -/
def emptyStrCount (t : Table) (n : String) : Nat :=
  ((t.getCol? n).getD []).countP (fun c => c == some "")

/-- The warnings appended by `CSVTransformer._validate_input` (its empty
check raises before any of these). -/
def inputWarnings (cfg : Config) (df : Table) : List VMsg :=
  let testrailCols := cfg.column_mappings.map Prod.snd
  let missing := testrailCols.filter (fun c => !(df.hasCol c))
  (if missing.isEmpty then [] else [.missingExpectedColumns missing]) ++
    (cfg.column_mappings.map (fun p =>
      if cfg.required_fields.contains p.1 && df.hasCol p.2 then
        let cnt := naCount df p.2
        if 0 < cnt then [VMsg.rowsHaveEmpty cnt p.2] else []
      else [])).flatten

/-- The errors appended by `CSVTransformer._validate_output`. -/
def transformerOutputErrors (cfg : Config) (rt : Table) : List VMsg :=
  (cfg.required_fields.map (fun field =>
    if rt.hasCol field then
      let cnt := naCount rt field + emptyStrCount rt field
      if 0 < cnt then [VMsg.rowsMissingRequired cnt field] else []
    else [])).flatten

/-- Result of a `transform` call: the success dictionary (row statistics
plus accumulated diagnostics) or the `except` branch (the stringified
exception plus the diagnostics accumulated up to the raise). -/
inductive TransformResult where
  | ok (original_rows transformed_rows : Nat) (errors warnings : List VMsg)
  | err (e : TError) (errors warnings : List VMsg)
  deriving DecidableEq, Repr

def TransformResult.isSuccess : TransformResult → Bool
  | .ok .. => true
  | .err .. => false

/-- `CSVTransformer.transform` on an already-parsed input table (CSV
reading and the final `to_csv`/preview are at the file boundary and not
modelled; a raise inside the pipeline lands in the `except` branch). -/
def transform (cfg : Config) (df : Table) : TransformResult :=
  let original := df.nidx
  if df.isEmptyT then
    .err .emptyInput [] []
  else
    let wIn := inputWarnings cfg df
    match applyTransformations cfg df with
    | .error (e, wApp) => .err e [] (wIn ++ wApp)
    | .ok (rt, wApp) =>
      .ok original rt.nidx (transformerOutputErrors cfg rt) (wIn ++ wApp)

/-! ## Spec-modelled parts

`format_summary` and the fully-empty-record pre-filter are described in
the specification (and `run.py` reads the `filtered_rows` statistic the
pre-filter produces) but no source file under `src/` implements them; they
are modelled here from the specification's words. -/

/-- `"<title>"` starts with the letter `C`. -/
def startsWithC (s : String) : Bool :=
  match s.data with
  | c :: _ => c = 'C'
  | [] => false

/-- Zero-pad the decimal rendering of `n` on the left to width 5. -/
def pad5 (n : Nat) : String :=
  let s := toString n
  if s.length < 5 then String.mk (List.replicate (5 - s.length) '0') ++ s else s

/-- Modelled from the spec: the identifier normalization used by
`format_summary` (no source file under `src/` implements it).  An
identifier that already starts with `C` is kept; one consisting only of
digits becomes `C` plus the integer value zero-padded to 5 digits; a
missing or non-numeric identifier becomes `C00000`. -/
def normalize_identifier : Option String → String
  | none => "C00000"
  | some s =>
    if startsWithC s then s
    else if s ≠ "" ∧ s.data.all Char.isDigit then "C" ++ pad5 (digitsToNat s.data)
    else "C00000"

/-- Modelled from the spec: `format_summary(title, identifier)` (no source
file under `src/` implements it) returns `"<title> - <paddedIdentifier>"`,
and the empty string when the title is missing, regardless of the
identifier. -/
def format_summary (title : Option String) (identifier : Option String) : String :=
  match title with
  | none => ""
  | some t => t ++ " - " ++ normalize_identifier identifier

/-- A cell counted as empty/missing by the pre-filter: a missing value or
the empty string. -/
def cellEmpty (c : Cell) : Bool :=
  match c with
  | none => true
  | some s => s == ""

/-- Cell of row `i` in column `name` (missing column reads as missing). -/
def Table.cellAt (t : Table) (name : String) (i : Nat) : Cell :=
  ((t.getCol? name).getD []).getD i none

/-- Row `i` is fully empty across the designated identity-bearing columns. -/
def rowIdEmpty (idCols : List String) (t : Table) (i : Nat) : Bool :=
  idCols.all (fun n => cellEmpty (t.cellAt n i))

/-- Modelled from the spec: the explicit pre-filter of `transform` (not
present in `src/src/transformer.py`; its caller `run.py` reads the
`filtered_rows` statistic).  A record is dropped when *all* of the
designated identity-bearing columns are empty/missing. -/
def prefilter (idCols : List String) (t : Table) : Table :=
  let keep := (List.range t.nidx).filter (fun i => !(rowIdEmpty idCols t i))
  ⟨t.cols.map (fun c => (c.1, keep.map (fun i => c.2.getD i none))), keep.length⟩

/-- Result of the pre-filtering `transform` variant: the success
dictionary additionally reports `original_rows` (before the pre-filter)
and `filtered_rows` (after it) separately. -/
inductive PrefilterResult where
  | ok (original_rows filtered_rows transformed_rows : Nat) (errors warnings : List VMsg)
  | err (e : TError) (errors warnings : List VMsg)
  deriving DecidableEq, Repr

def PrefilterResult.isSuccess : PrefilterResult → Bool
  | .ok .. => true
  | .err .. => false

def PrefilterResult.originalRows? : PrefilterResult → Option Nat
  | .ok o _ _ _ _ => some o
  | .err .. => none

def PrefilterResult.filteredRows? : PrefilterResult → Option Nat
  | .ok _ f _ _ _ => some f
  | .err .. => none

/-- Modelled from the spec: `transform` with the optional fully-empty
record pre-filter (absent from `src/src/transformer.py`).  The pre-filter
runs right after reading the input and before validation/mapping, and the
row loss it causes is reported apart from the mapping statistics:
`original_rows` counts the rows as read, `filtered_rows` the rows that
survive the pre-filter. -/
def transform_with_prefilter (cfg : Config) (idCols : List String) (df : Table) :
    PrefilterResult :=
  let df' := prefilter idCols df
  match transform cfg df' with
  | .ok _ transformed e w => .ok df.nidx df'.nidx transformed e w
  | .err e es ws => .err e es ws

/-! ## Validator (`DataValidator`) -/

/-- The mutable `self.errors` / `self.warnings` buffers of the validator. -/
structure ValidatorState where
  errors : List VMsg
  warnings : List VMsg
  deriving DecidableEq, Repr

structure InputResult where
  is_valid : Bool
  errors : List VMsg
  warnings : List VMsg
  row_count : Nat
  column_count : Nat
  deriving DecidableEq, Repr

structure OutputResult where
  is_valid : Bool
  errors : List VMsg
  warnings : List VMsg
  ready_for_import : Bool
  deriving DecidableEq, Repr

/-- `if b then [m] else []`: one conditionally-appended diagnostic. -/
def optMsg (b : Bool) (m : VMsg) : List VMsg :=
  if b then [m] else []

/-- `DataValidator._validate_structure`: (errors, warnings).  The
duplicate-column and no-column checks mirror the source; the no-column error
is unreachable because a column-less frame is already `empty`. -/
def structureMsgs (t : Table) : List VMsg × List VMsg :=
  if t.isEmptyT then ([VMsg.emptyTable], [])
  else if t.cols.length = 0 then ([VMsg.noColumns], [])
  else
    let names := t.colNames
    let dups := names.filter (fun c => 1 < names.count c)
    let emptyCols := names.filter (fun n => ((t.getCol? n).getD []).all (fun c => c.isNone))
    (optMsg (!(names.length == names.dedup.length)) (.duplicateColumns dups),
     optMsg (!emptyCols.isEmpty) (.emptyColumns emptyCols))

/-- Character class `[a-zA-Z0-9._%+-]` of the email pattern. -/
def emailLocalChar (c : Char) : Bool :=
  c.isAlphanum || c == '.' || c == '_' || c == '%' || c == '+' || c == '-'

/-- Character class `[a-zA-Z0-9.-]` of the email pattern. -/
def emailDomainChar (c : Char) : Bool :=
  c.isAlphanum || c == '.' || c == '-'

/-- `re.match` of `^[a-zA-Z0-9._%+-]+@[a-zA-Z0-9.-]+\.[a-zA-Z]{2,}$`:
since neither class contains `@`, the string must split at a unique `@`
into a non-empty local part and a domain that ends in a dot followed by at
least two letters. -/
def emailMatch (s : String) : Bool :=
  match s.splitOn "@" with
  | [localPart, domain] =>
    !localPart.isEmpty && localPart.data.all emailLocalChar &&
      (let l := domain.data
       (List.range l.length).any (fun i =>
         l.getD i 'x' == '.' && !(i == 0) && (l.take i).all emailDomainChar &&
           (l.drop (i + 1)).all Char.isAlpha && 2 ≤ l.length - (i + 1)))
  | _ => false

def isLeapYear (y : Nat) : Bool :=
  y % 4 == 0 && (!(y % 100 == 0) || y % 400 == 0)

def daysInMonth (y m : Nat) : Nat :=
  if m == 2 then (if isLeapYear y then 29 else 28)
  else if m == 4 || m == 6 || m == 9 || m == 11 then 30
  else 31

/-- A numeric field of `strptime`: all digits, between `minLen` and
`maxLen` characters, value between `lo` and `hi`. -/
def numField (s : String) (minLen maxLen lo hi : Nat) : Bool :=
  minLen ≤ s.length && s.length ≤ maxLen && s.data.all Char.isDigit &&
    (let v := digitsToNat s.data
     lo ≤ v && v ≤ hi)

/-- `strptime` with `%Y-%m-%d` (4-digit year ≥ 1, calendar-checked). -/
def dateYmd (s : String) : Bool :=
  match s.splitOn "-" with
  | [y, m, d] =>
    numField y 4 4 1 9999 && numField m 1 2 1 12 && numField d 1 2 1 31 &&
      digitsToNat d.data ≤ daysInMonth (digitsToNat y.data) (digitsToNat m.data)
  | _ => false

/-- `strptime` with `%m/%d/%Y` or (when `swap`) `%d/%m/%Y`. -/
def dateSlash (swap : Bool) (s : String) : Bool :=
  match s.splitOn "/" with
  | [a, b, y] =>
    let m := if swap then b else a
    let d := if swap then a else b
    numField y 4 4 1 9999 && numField m 1 2 1 12 && numField d 1 2 1 31 &&
      digitsToNat d.data ≤ daysInMonth (digitsToNat y.data) (digitsToNat m.data)
  | _ => false

/-- `strptime` with `%Y-%m-%d %H:%M:%S`. -/
def dateYmdHms (s : String) : Bool :=
  match s.splitOn " " with
  | [datePart, timePart] =>
    dateYmd datePart &&
      (match timePart.splitOn ":" with
       | [h, mi, sec] =>
         numField h 1 2 0 23 && numField mi 1 2 0 59 && numField sec 1 2 0 61
       | _ => false)
  | _ => false

/-- Any of the four accepted date layouts of `_validate_date_format`. -/
def isValidDateAny (s : String) : Bool :=
  dateYmd s || dateSlash false s || dateSlash true s || dateYmdHms s

/-- First-occurrence deduplication (`Series.unique`). -/
def dedupFirstAux {α : Type} [DecidableEq α] (seen : List α) : List α → List α
  | [] => []
  | a :: l => if a ∈ seen then dedupFirstAux seen l else a :: dedupFirstAux (seen ++ [a]) l

def dedupFirst {α : Type} [DecidableEq α] (l : List α) : List α :=
  dedupFirstAux [] l

/-- `DataValidator._validate_column_format` for one column: email, date
and priority checks, all warnings.  `col_data` is the column with missing
values dropped. -/
def colFormatMsgs (cfg : Config) (t : Table) (column : String) : List VMsg :=
  let colData := ((t.getCol? column).getD []).filterMap id
  if colData.isEmpty then []
  else
    (if strContains (strLower column) "email" then
      let bad := colData.countP (fun v => !(emailMatch v))
      optMsg (!(bad == 0)) (.invalidEmails column bad)
    else []) ++
    (if strContains (strLower column) "date" || strContains (strLower column) "created" ||
        strContains (strLower column) "updated" then
      match (colData.take 10).find? (fun v =>
          !(isValidDateAny v) && !(["nan", "none", ""].contains (strLower v))) with
      | some v => [.badDateFormat column v]
      | none => []
    else []) ++
    (if strContains (strLower column) "priority" then
      let allowed := cfg.validation_rules.allowed_priorities
      if allowed.isEmpty then []
      else
        let invalid := colData.filter (fun v => !(allowed.contains v))
        optMsg (!invalid.isEmpty) (.invalidPriorities column ((dedupFirst invalid).take 5))
    else [])

/-- `DataValidator._validate_field_content`: expected-column warning plus
the per-column format checks (warnings only). -/
def fieldContentMsgs (cfg : Config) (t : Table) : List VMsg :=
  let expected := cfg.column_mappings.map Prod.snd
  let missing := expected.filter (fun c => !(t.hasCol c))
  (if missing.isEmpty then [] else [.expectedColumnsNotFound missing]) ++
    (t.colNames.map (colFormatMsgs cfg t)).flatten

/-- `DataValidator._validate_business_rules` (warnings only). -/
def businessRulesMsgs (t : Table) : List VMsg :=
  optMsg (10000 < t.nidx) (.largeDataset t.nidx) ++
    (if t.hasCol "Title" then
      let vs := (t.getCol? "Title").getD []
      let dupCount := vs.length - vs.dedup.length
      optMsg (!(dupCount == 0)) (.duplicateTitles dupCount)
    else [])

/-- `DataValidator.validate_input_data`: resets the error/warning buffers
(discarding the incoming state `_s`), runs the three input passes, and
returns the new buffer state, the (unmodified) table, and the result
dictionary. -/
def validate_input_data (cfg : Config) (_s : ValidatorState) (t : Table) :
    ValidatorState × Table × InputResult :=
  let (e1, w1) := structureMsgs t
  let es := e1
  let ws := w1 ++ fieldContentMsgs cfg t ++ businessRulesMsgs t
  (⟨es, ws⟩, t, ⟨es.isEmpty, es, ws, t.nidx, t.cols.length⟩)

/-- The `empty_count` of `_validate_required_fields` (missing plus
empty-string occurrences). -/
def reqEmptyCount (t : Table) (field : String) : Nat :=
  naCount t field + emptyStrCount t field

/-- Per-required-field errors of `DataValidator._validate_required_fields`. -/
def requiredFieldMsgs (t : Table) (field : String) : List VMsg :=
  if t.hasCol field then
    if 0 < reqEmptyCount t field then [.requiredEmpty field (reqEmptyCount t field)] else []
  else [.requiredMissing field]

def requiredFieldErrors (cfg : Config) (t : Table) : List VMsg :=
  (cfg.required_fields.map (requiredFieldMsgs t)).flatten

/-- `^[A-Z][A-Z0-9_]*$` on a project key. -/
def projectKeyOk (s : String) : Bool :=
  match s.data with
  | [] => false
  | c :: cs => c.isUpper && cs.all (fun ch => ch.isUpper || ch.isDigit || ch == '_')

/-- A value's membership test for `Series.isin` (`NaN` is in no list). -/
def cellIsIn (allowed : List String) (c : Cell) : Bool :=
  match c with
  | none => false
  | some s => allowed.contains s

/-- Number of cells of a column whose `str(...)` form exceeds `maxLen`
characters. -/
def longCount (t : Table) (col : String) (maxLen : Nat) : Nat :=
  ((t.getCol? col).getD []).countP (fun c => maxLen < (cellStr c).length)

/-- `validation_rules.get("max_summary_length", 255)`. -/
def maxSummaryLen (cfg : Config) : Nat :=
  cfg.validation_rules.max_summary_length.getD 255

/-- `validation_rules.get("max_description_length", 32767)`. -/
def maxDescriptionLen (cfg : Config) : Nat :=
  cfg.validation_rules.max_description_length.getD 32767

/-- Number of `Issue Type` cells outside the allowed list. -/
def invalidIssueTypeCount (cfg : Config) (t : Table) : Nat :=
  ((t.getCol? "Issue Type").getD []).countP
    (fun c => !(cellIsIn cfg.validation_rules.required_issue_types c))

/-- The distinct non-missing `Project Key` values that fail the
`^[A-Z][A-Z0-9_]*$` pattern, in first-occurrence order. -/
def badProjectKeys (t : Table) : List String :=
  (dedupFirst (((t.getCol? "Project Key").getD []).filterMap id)).filter
    (fun k => !(projectKeyOk k))

/-- `DataValidator._validate_jira_compliance` (errors only): each `if
column present / list configured / offender count positive` chain of the
source is flattened into one guard. -/
def complianceErrors (cfg : Config) (t : Table) : List VMsg :=
  optMsg (t.hasCol "Summary" && !(longCount t "Summary" (maxSummaryLen cfg) == 0))
    (.summariesTooLong (longCount t "Summary" (maxSummaryLen cfg)) (maxSummaryLen cfg)) ++
  optMsg (t.hasCol "Description" && !(longCount t "Description" (maxDescriptionLen cfg) == 0))
    (.descriptionsTooLong (longCount t "Description" (maxDescriptionLen cfg))
      (maxDescriptionLen cfg)) ++
  optMsg (t.hasCol "Issue Type" && !(cfg.validation_rules.required_issue_types.isEmpty) &&
      !(invalidIssueTypeCount cfg t == 0))
    (.invalidIssueTypes cfg.validation_rules.required_issue_types) ++
  (if t.hasCol "Project Key" then badProjectKeys t else []).map VMsg.invalidProjectKey

/-- Python `\s` (the whitespace characters matched by the `re` module on
ASCII text). -/
def pySpace (c : Char) : Bool :=
  c == ' ' || c == '\t' || c == '\n' || c == '\x0d' || c == '\x0b' || c == '\x0c'

/-- Complement of the character class `[^\w\s\-.,;:()!?]`. -/
def allowedTextChar (c : Char) : Bool :=
  c.isAlphanum || c == '_' || pySpace c ||
    c == '-' || c == '.' || c == ',' || c == ';' || c == ':' ||
    c == '(' || c == ')' || c == '!' || c == '?'

/-- `DataValidator._validate_data_quality` (warnings only).  The
percentage threshold `missing / len * 100 > 50` is expressed exactly as
`2 * missing > len` (for `len = 0` numpy yields `nan > 50 = False`). -/
def dataQualityMsgs (t : Table) : List VMsg :=
  let emptyRowCount :=
    (List.range t.nidx).countP (fun i => t.cols.all (fun c => (c.2.getD i (some "")).isNone))
  optMsg (!(emptyRowCount == 0)) (.emptyRows emptyRowCount) ++
    (t.colNames.map (fun n =>
      let missing := naCount t n
      optMsg (!(t.nidx == 0) && t.nidx < 2 * missing) (.mostlyEmptyColumn n missing t.nidx))).flatten ++
    (["Summary", "Description", "Component"].map (fun n =>
      if t.hasCol n then
        let cnt := ((t.getCol? n).getD []).countP
          (fun c => (cellStr c).data.any (fun ch => !(allowedTextChar ch)))
        optMsg (!(cnt == 0)) (.specialCharacters n cnt)
      else [])).flatten

/-- `DataValidator.validate_output_data`: resets the buffers (discarding
`_s`), runs required-field, Jira-compliance and data-quality passes, and
returns the new state, the (unmodified) table, and the result dictionary. -/
def validate_output_data (cfg : Config) (_s : ValidatorState) (t : Table) :
    ValidatorState × Table × OutputResult :=
  let es := requiredFieldErrors cfg t ++ complianceErrors cfg t
  let ws := dataQualityMsgs t
  (⟨es, ws⟩, t, ⟨es.isEmpty, es, ws, es.isEmpty⟩)

/-! ## Auxiliary definitions used by the statements -/

/-- The names after an assignment: unchanged when the column exists,
appended otherwise. -/
def insertName (ns : List String) (n : String) : List String :=
  if n ∈ ns then ns else ns ++ [n]

/-- A minimal well-formed input table under the default configuration. -/
def dfTiny : Table := ⟨[("Title", [some "a"])], 1⟩

/-- A configuration whose output schema repeats the field `Labels`. -/
def cfgDup : Config :=
  { column_mappings := []
    static_values := [("Labels", "x")]
    transformations := []
    required_fields := []
    jira_fields := ["Labels", "Labels"]
    validation_rules := ⟨[], none, none, []⟩ }

/-- One-column one-row input table. -/
def dfOne : Table := ⟨[("ID", [some "1"])], 1⟩

/-- A zero-row table with a non-empty column set. -/
def dfNoRows : Table := ⟨[("A", [])], 0⟩

/-- Output-style table whose required `Summary` column has one empty
string and one missing value among three rows. -/
def tSummary : Table := ⟨[("Summary", [some "", some "x", none])], 3⟩

/-- A configuration requiring only `Summary`. -/
def cfgReqSummary : Config :=
  { column_mappings := []
    static_values := []
    transformations := []
    required_fields := ["Summary"]
    jira_fields := []
    validation_rules := ⟨[], none, none, []⟩ }

/-- Input for the pre-filter scenario: the middle record is fully empty in
both identity columns. -/
def dfPrefilter : Table :=
  ⟨[("ID", [some "1", none, some "3"]), ("Title", [some "a", some "", some "c"])], 3⟩

/-! ## Basic lemmas about the table operations -/

theorem findCol_replaceCol_self (n : String) (vs : List Cell) :
    ∀ cols, findCol (replaceCol cols n vs) n = some vs := by
  intro cols
  induction cols with
  | nil => simp [replaceCol, findCol]
  | cons c cs ih =>
    by_cases h : c.1 = n
    · simp [replaceCol, findCol, h]
    · simp [replaceCol, findCol, h, ih]

theorem names_replaceCol (n : String) (vs : List Cell) :
    ∀ cols, (replaceCol cols n vs).map Prod.fst = insertName (cols.map Prod.fst) n := by
  intro cols
  induction cols with
  | nil => simp [replaceCol, insertName]
  | cons c cs ih =>
    by_cases hc : c.1 = n
    · simp [replaceCol, hc, insertName]
    · have hne : ¬ n = c.1 := fun hh => hc hh.symm
      simp only [replaceCol, if_neg hc, List.map_cons, ih, insertName, List.mem_cons, hne,
        false_or]
      by_cases hmem : n ∈ cs.map Prod.fst <;> simp [hmem]

theorem names_reindexAll (cols : List (String × List Cell)) (len : Nat) :
    (reindexAll cols len).map Prod.fst = cols.map Prod.fst := by
  simp [reindexAll]

theorem findCol_reindexAll_isSome (m : String) (len : Nat) (cols : List (String × List Cell)) :
    (findCol (reindexAll cols len) m).isSome = (findCol cols m).isSome := by
  induction cols with
  | nil => simp [reindexAll, findCol]
  | cons c cs ih =>
    by_cases hc : c.1 = m
    · simp [reindexAll, findCol, hc]
    · simpa [reindexAll, findCol, hc] using ih

theorem colNames_setScalar (t : Table) (n v : String) :
    (t.setScalar n v).colNames = insertName t.colNames n := by
  simp [Table.setScalar, Table.colNames, names_replaceCol]

theorem colNames_setSeries (t : Table) (n : String) (vs : List Cell) :
    (t.setSeries n vs).colNames = insertName t.colNames n := by
  unfold Table.setSeries
  split
  · simp [Table.colNames, names_replaceCol, names_reindexAll]
  · simp [Table.colNames, names_replaceCol]

theorem getCol?_setSeries_self (t : Table) (n : String) (vs : List Cell) :
    (t.setSeries n vs).getCol? n = some vs := by
  unfold Table.setSeries
  split <;> simp [Table.getCol?, findCol_replaceCol_self]

theorem alookup_eq_none {α : Type} (l : List (String × α)) (k : String)
    (h : k ∉ l.map Prod.fst) : alookup l k = none := by
  induction l with
  | nil => rfl
  | cons c cs ih =>
    simp only [List.map_cons, List.mem_cons] at h
    push_neg at h
    obtain ⟨h1, h2⟩ := h
    simp [alookup, Ne.symm h1, ih h2]

theorem alookup_getD_mem {α : Type} (l : List (String × α)) (k : String) (d : α) :
    (alookup l k).getD d = d ∨ (alookup l k).getD d ∈ l.map Prod.snd := by
  induction l with
  | nil => simp [alookup]
  | cons c cs ih =>
    by_cases hc : c.1 = k
    · right
      simp [alookup, hc]
    · rcases ih with h | h
      · left; simpa [alookup, hc] using h
      · right; simp only [List.map_cons, List.mem_cons]
        right; simpa [alookup, hc] using h

/-! ## Lemmas about first-occurrence deduplication -/

theorem foldl_insertName_eq (l : List String) :
    ∀ acc, List.foldl insertName acc l = acc ++ dedupFirstAux acc l := by
  induction l with
  | nil => intro acc; simp [dedupFirstAux]
  | cons a l ih =>
    intro acc
    by_cases h : a ∈ acc
    · simp [List.foldl_cons, insertName, h, dedupFirstAux, ih]
    · simp [List.foldl_cons, insertName, h, dedupFirstAux, ih, List.append_assoc]

theorem dedupFirstAux_of_nodup (l : List String) :
    ∀ seen, (∀ x ∈ l, x ∉ seen) → l.Nodup → dedupFirstAux seen l = l := by
  induction l with
  | nil => intro seen _ _; rfl
  | cons a l ih =>
    intro seen hdisj hnd
    have ha : a ∉ seen := hdisj a (List.mem_cons_self a l)
    rw [List.nodup_cons] at hnd
    have hrest : ∀ x ∈ l, x ∉ seen ++ [a] := by
      intro x hx
      simp only [List.mem_append, List.mem_singleton]
      rintro (hs | rfl)
      · exact hdisj x (List.mem_cons_of_mem a hx) hs
      · exact hnd.1 hx
    simp [dedupFirstAux, ha, ih (seen ++ [a]) hrest hnd.2]

/-! ## Branch equations for `applyField` -/

theorem applyField_static (cfg : Config) (df r : Table) (w : List VMsg) (jf lit : String)
    (hs : alookup cfg.static_values jf = some lit) :
    applyField cfg df r w jf = .ok (r.setScalar jf lit, w) := by
  simp only [applyField, hs]

theorem applyField_mapped_plain (cfg : Config) (df r : Table) (w : List VMsg)
    (jf tf : String) (vs : List Cell)
    (hs : alookup cfg.static_values jf = none)
    (hm : alookup cfg.column_mappings jf = some tf)
    (hc : df.getCol? tf = some vs)
    (ht : alookup cfg.transformations jf = none) :
    applyField cfg df r w jf = .ok (r.setSeries jf vs, w) := by
  simp only [applyField, hs, hm, hc, ht]

theorem applyField_trans_ok (cfg : Config) (df r : Table) (w : List VMsg)
    (jf tf fname : String) (vs vs' : List Cell)
    (hs : alookup cfg.static_values jf = none)
    (hm : alookup cfg.column_mappings jf = some tf)
    (hc : df.getCol? tf = some vs)
    (ht : alookup cfg.transformations jf = some fname)
    (hattr : transformerAttrs.contains fname = true)
    (happ : mapMo (attrApply fname) vs = some vs') :
    applyField cfg df r w jf = .ok ((r.setSeries jf vs).setSeries jf vs', w) := by
  simp only [applyField, hs, hm, hc, ht, hattr, getCol?_setSeries_self, Option.getD_some,
    if_true, happ]

theorem applyField_trans_raise (cfg : Config) (df r : Table) (w : List VMsg)
    (jf tf fname : String) (vs : List Cell)
    (hs : alookup cfg.static_values jf = none)
    (hm : alookup cfg.column_mappings jf = some tf)
    (hc : df.getCol? tf = some vs)
    (ht : alookup cfg.transformations jf = some fname)
    (hattr : transformerAttrs.contains fname = true)
    (happ : mapMo (attrApply fname) vs = none) :
    applyField cfg df r w jf = .error (.applyRaised fname, w) := by
  simp only [applyField, hs, hm, hc, ht, hattr, getCol?_setSeries_self, Option.getD_some,
    if_true, happ]

theorem applyField_unknown_trans (cfg : Config) (df r : Table) (w : List VMsg)
    (jf tf fname : String) (vs : List Cell)
    (hs : alookup cfg.static_values jf = none)
    (hm : alookup cfg.column_mappings jf = some tf)
    (hc : df.getCol? tf = some vs)
    (ht : alookup cfg.transformations jf = some fname)
    (hattr : transformerAttrs.contains fname = false) :
    applyField cfg df r w jf = .error (.unknownTransformation fname, w) := by
  simp only [applyField, hs, hm, hc, ht, hattr, Bool.false_eq_true, if_false]

theorem applyField_missing_src (cfg : Config) (df r : Table) (w : List VMsg)
    (jf tf : String)
    (hs : alookup cfg.static_values jf = none)
    (hm : alookup cfg.column_mappings jf = some tf)
    (hc : df.getCol? tf = none) :
    applyField cfg df r w jf = .ok (r.setScalar jf "", w ++ [.sourceColumnMissing tf jf]) := by
  simp only [applyField, hs, hm, hc]

theorem applyField_unconfigured (cfg : Config) (df r : Table) (w : List VMsg) (jf : String)
    (hs : alookup cfg.static_values jf = none)
    (hm : alookup cfg.column_mappings jf = none) :
    applyField cfg df r w jf = .ok (r.setScalar jf "", w) := by
  simp only [applyField, hs, hm]

/-! ## Per-step invariants -/

theorem insertName_idem (ns : List String) (n : String) :
    insertName (insertName ns n) n = insertName ns n := by
  unfold insertName
  by_cases h : n ∈ ns
  · simp [h]
  · simp [h]

/-- A successful step assigns exactly the processed field's name. -/
theorem applyField_ok_names (cfg : Config) (df r : Table) (w : List VMsg) (jf : String)
    (r' : Table) (w' : List VMsg)
    (h : applyField cfg df r w jf = .ok (r', w')) :
    r'.colNames = insertName r.colNames jf := by
  rcases hs : alookup cfg.static_values jf with _ | lit
  · rcases hm : alookup cfg.column_mappings jf with _ | tf
    · rw [applyField_unconfigured cfg df r w jf hs hm] at h
      obtain ⟨rfl, rfl⟩ := by simpa using h
      exact colNames_setScalar r jf ""
    · rcases hc : df.getCol? tf with _ | vs
      · rw [applyField_missing_src cfg df r w jf tf hs hm hc] at h
        obtain ⟨rfl, rfl⟩ := by simpa using h
        exact colNames_setScalar r jf ""
      · rcases ht : alookup cfg.transformations jf with _ | fname
        · rw [applyField_mapped_plain cfg df r w jf tf vs hs hm hc ht] at h
          obtain ⟨rfl, rfl⟩ := by simpa using h
          exact colNames_setSeries r jf vs
        · by_cases hattr : transformerAttrs.contains fname = true
          · rcases happ : mapMo (attrApply fname) vs with _ | vs'
            · rw [applyField_trans_raise cfg df r w jf tf fname vs hs hm hc ht hattr happ] at h
              simp at h
            · rw [applyField_trans_ok cfg df r w jf tf fname vs vs' hs hm hc ht hattr happ] at h
              obtain ⟨rfl, rfl⟩ := by simpa using h
              rw [colNames_setSeries, colNames_setSeries, insertName_idem]
          · rw [Bool.not_eq_true] at hattr
            rw [applyField_unknown_trans cfg df r w jf tf fname vs hs hm hc ht hattr] at h
            simp at h
  · rw [applyField_static cfg df r w jf lit hs] at h
    obtain ⟨rfl, rfl⟩ := by simpa using h
    exact colNames_setScalar r jf lit

theorem applyFields_ok_names (cfg : Config) (df : Table) (fields : List String) :
    ∀ r w r' w', applyFields cfg df fields r w = .ok (r', w') →
      r'.colNames = List.foldl insertName r.colNames fields := by
  induction fields with
  | nil =>
    intro r w r' w' h
    obtain ⟨rfl, rfl⟩ := by simpa [applyFields] using h
    rfl
  | cons f fs ih =>
    intro r w r' w' h
    unfold applyFields at h
    rcases hstep : applyField cfg df r w f with e | ⟨r1, w1⟩ <;> rw [hstep] at h
    · simp at h
    · rw [List.foldl_cons, ← applyField_ok_names cfg df r w f r1 w1 hstep]
      exact ih r1 w1 r' w' h

/-- **C1** (corrected).  For every configuration and input table on which
`_apply_transformations` completes, the in-memory output column sequence
equals `jira_fields` with every duplicated name collapsed to its first
occurrence (`dedupFirst`): a later duplicate slot overwrites the existing
column in place instead of adding a distinct column.  In particular the
sequence equals `jira_fields` exactly when `jira_fields` has no duplicate
names.  (The claim's "every slot is kept as a distinct column of the
in-memory table" fails; see the counterexample.) -/
theorem claim1_output_columns (cfg : Config) (df : Table)
    (hok : applyOk cfg df = true) :
    (outTable cfg df).colNames = dedupFirst cfg.jira_fields ∧
      (cfg.jira_fields.Nodup → (outTable cfg df).colNames = cfg.jira_fields) := by
  unfold applyOk at hok
  cases happ : applyTransformations cfg df with
  | error e => rw [happ] at hok; simp at hok
  | ok p =>
    have hout : outTable cfg df = p.1 := by
      unfold outTable
      rw [happ]
    unfold applyTransformations at happ
    have hnames := applyFields_ok_names cfg df cfg.jira_fields ⟨[], 0⟩ [] p.1 p.2
      (by rw [happ])
    have hinit : (Table.mk [] 0).colNames = [] := rfl
    rw [hinit, foldl_insertName_eq] at hnames
    constructor
    · rw [hout, hnames]
      rfl
    · intro hnd
      rw [hout, hnames]
      show dedupFirstAux [] cfg.jira_fields = cfg.jira_fields
      exact dedupFirstAux_of_nodup cfg.jira_fields [] (by intro x _ hx; simp at hx) hnd

/-- Witness for C1 at the default configuration: the schema has no
duplicate names and the output columns equal it exactly. -/
theorem claim1_witness :
    (outTable defaultConfig dfTiny).colNames = defaultConfig.jira_fields :=
  (claim1_output_columns defaultConfig dfTiny (by decide)).2 (by decide)

/-- Counterexample to C1 as stated: with a duplicated `Labels` slot the
accepted input produces an in-memory table whose column sequence is not
`jira_fields` (the duplicate collapsed in memory). -/
theorem claim1_counterexample :
    (transform cfgDup dfOne).isSuccess = true ∧
      (outTable cfgDup dfOne).colNames ≠ cfgDup.jira_fields := by
  constructor
  · decide
  · decide

/-! ## C4 -/

/-- **C10** (confirmed).  A zero-row input table — whatever its column
set — makes `transform` return a failure result carrying the
empty-input error, rather than a successful result with an empty output
table (`df.empty` is true whenever the row axis is empty, and
`_validate_input` raises on it before any mapping). -/
theorem claim10_empty_input_fails (cfg : Config) (t : Table) (h : t.nidx = 0) :
    transform cfg t = .err .emptyInput [] [] := by
  simp [transform, Table.isEmptyT, h]

/-- Witness for C10: a zero-row table with a non-empty column set. -/
theorem claim10_witness :
    dfNoRows.cols ≠ [] ∧ transform defaultConfig dfNoRows = .err .emptyInput [] [] :=
  ⟨by decide, claim10_empty_input_fails defaultConfig dfNoRows (by decide)⟩

/-! ## C2 -/

theorem startsWithC_C_append (x : String) : startsWithC ("C" ++ x) = true := by
  unfold startsWithC
  rw [String.data_append]
  simp

/-- **C2** (confirmed, spec-modelled).  `format_summary` returns
`"<title> - <paddedIdentifier>"`; the identifier is normalized: one that
does not already start with `C` and consists only of digits becomes `C`
plus the integer value zero-padded to 5 digits, a missing or non-numeric
identifier becomes `C00000`, and a missing title gives the empty string
regardless of the identifier; the normalization is idempotent (an
already-`C`-prefixed identifier is neither re-padded nor re-prefixed). -/
theorem claim2_format_summary :
    (∀ i, format_summary none i = "") ∧
    (∀ t i, format_summary (some t) i = t ++ " - " ++ normalize_identifier i) ∧
    normalize_identifier none = "C00000" ∧
    (∀ s, startsWithC s = false → s ≠ "" → s.data.all Char.isDigit = true →
      normalize_identifier (some s) = "C" ++ pad5 (digitsToNat s.data)) ∧
    (∀ s, startsWithC s = false → (s = "" ∨ s.data.all Char.isDigit = false) →
      normalize_identifier (some s) = "C00000") ∧
    (∀ i, normalize_identifier (some (normalize_identifier i)) = normalize_identifier i) := by
  refine ⟨fun i => rfl, fun t i => by simp [format_summary, String.append_assoc], rfl,
    ?_, ?_, ?_⟩
  · intro s h1 h2 h3
    simp [normalize_identifier, h1, h2, h3]
  · intro s h1 h2
    rcases h2 with rfl | h2
    · rfl
    · simp [normalize_identifier, h1, h2]
  · intro i
    rcases i with _ | s
    · decide
    · by_cases h1 : startsWithC s = true
      · have hs : normalize_identifier (some s) = s := by
          simp [normalize_identifier, h1]
        rw [hs]
        exact hs
      · rw [Bool.not_eq_true] at h1
        by_cases h2 : s = ""
        · subst h2
          decide
        · by_cases h3 : s.data.all Char.isDigit = true
          · have hs : normalize_identifier (some s) = "C" ++ pad5 (digitsToNat s.data) := by
              simp [normalize_identifier, h1, h2, h3]
            rw [hs]
            simp [normalize_identifier, startsWithC_C_append]
          · have hs : normalize_identifier (some s) = "C00000" := by
              simp [normalize_identifier, h1, h2, h3]
            rw [hs]
            decide

/-- Witness for C2 at a concrete title and numeric identifier. -/
theorem claim2_witness :
    format_summary (some "Login works") (some "00123") =
      "Login works" ++ " - " ++ ("C" ++ pad5 (digitsToNat "00123".data)) := by
  have h := claim2_format_summary
  rw [h.2.1 "Login works" (some "00123"),
    h.2.2.2.1 "00123" (by decide) (by decide) (by decide)]

/-! ## C6 -/

/-- **C6** (confirmed).  `priority_mapping` is total: every input maps to
one of `{Low, Medium, High, Highest}`; the lookup is case-insensitive and
keyed by `"1"`–`"4"` and `"low"`, `"medium"`, `"high"`, `"critical"`; any
unmapped or missing input yields `Medium`; `"HIGH"`, `"High"` and `"high"`
all map to `High`. -/
theorem claim6_priority_mapping :
    (∀ p : Cell, priority_mapping p ∈ ["Low", "Medium", "High", "Highest"]) ∧
    priority_mapping none = "Medium" ∧
    (∀ s : String,
      strLower s ∉ ["1", "2", "3", "4", "low", "medium", "high", "critical"] →
      priority_mapping (some s) = "Medium") ∧
    priority_mapping (some "1") = "Low" ∧ priority_mapping (some "2") = "Medium" ∧
    priority_mapping (some "3") = "High" ∧ priority_mapping (some "4") = "Highest" ∧
    priority_mapping (some "low") = "Low" ∧ priority_mapping (some "medium") = "Medium" ∧
    priority_mapping (some "high") = "High" ∧ priority_mapping (some "critical") = "Highest" ∧
    priority_mapping (some "HIGH") = "High" ∧ priority_mapping (some "High") = "High" := by
  refine ⟨?_, rfl, ?_, by decide, by decide, by decide, by decide, by decide, by decide,
    by decide, by decide, by decide, by decide⟩
  · intro p
    rcases p with _ | s
    · decide
    · show (alookup priority_map (strLower s)).getD "Medium" ∈ _
      rcases alookup_getD_mem priority_map (strLower s) "Medium" with h | h
      · rw [h]; decide
      · exact (by decide :
          ∀ x ∈ priority_map.map Prod.snd, x ∈ ["Low", "Medium", "High", "Highest"]) _ h
  · intro s hnot
    have hkeys : strLower s ∉ priority_map.map Prod.fst := by
      simpa [priority_map] using hnot
    show (alookup priority_map (strLower s)).getD "Medium" = "Medium"
    rw [alookup_eq_none priority_map (strLower s) hkeys]
    rfl

/-- Witness for C6 applying the unmapped case at a concrete string. -/
theorem claim6_witness : priority_mapping (some "Blocker") = "Medium" :=
  claim6_priority_mapping.2.2.1 "Blocker" (by decide)

/-! ## C3 -/

/-- **C3** (confirmed, spec-modelled).  The pre-filtering `transform`
variant drops a record exactly when all designated identity-bearing
columns are empty/missing, and its success result reports the loss apart
from the mapping statistics: `original_rows` is the input row count and
`filtered_rows` the number of records with at least one non-empty identity
column. -/
theorem claim3_prefilter_counts (cfg : Config) (idCols : List String) (df : Table)
    (h : (transform_with_prefilter cfg idCols df).isSuccess = true) :
    (transform_with_prefilter cfg idCols df).originalRows? = some df.nidx ∧
    (transform_with_prefilter cfg idCols df).filteredRows? =
      some (prefilter idCols df).nidx ∧
    (prefilter idCols df).nidx =
      (List.range df.nidx).countP (fun i => !(rowIdEmpty idCols df i)) := by
  have hcount : (prefilter idCols df).nidx =
      (List.range df.nidx).countP (fun i => !(rowIdEmpty idCols df i)) := by
    show ((List.range df.nidx).filter (fun i => !(rowIdEmpty idCols df i))).length = _
    rw [List.countP_eq_length_filter]
  simp only [transform_with_prefilter] at h ⊢
  cases htr : transform cfg (prefilter idCols df) with
  | ok o tr e w => simp [htr, PrefilterResult.originalRows?, PrefilterResult.filteredRows?, hcount]
  | err e es ws => rw [htr] at h; simp [PrefilterResult.isSuccess] at h

/-- Witness for C3 at a concrete table: three records, one fully empty in
the identity columns `ID` and `Title`. -/
theorem claim3_witness :
    (transform_with_prefilter defaultConfig ["ID", "Title"] dfPrefilter).originalRows? =
        some 3 ∧
      (transform_with_prefilter defaultConfig ["ID", "Title"] dfPrefilter).filteredRows? =
        some 2 := by
  have h := claim3_prefilter_counts defaultConfig ["ID", "Title"] dfPrefilter (by decide)
  exact ⟨h.1, h.2.1⟩

/-! ## C9 -/

/-- **C9** (confirmed).  Neither validator entry point mutates its table
(the threaded table comes back structurally equal), and the buffers are
reset per call: the entire outcome — new state, table, result — is
independent of the validator state the call starts from, so errors and
warnings reflect only that call. -/
theorem claim9_validator_pure (cfg : Config) (s1 s2 : ValidatorState) (t : Table) :
    (validate_input_data cfg s1 t).2.1 = t ∧
    (validate_output_data cfg s1 t).2.1 = t ∧
    validate_input_data cfg s1 t = validate_input_data cfg s2 t ∧
    validate_output_data cfg s1 t = validate_output_data cfg s2 t :=
  ⟨rfl, rfl, rfl, rfl⟩

/-! ## C8 -/

theorem mem_optMsg {m x : VMsg} {b : Bool} (h : x ∈ optMsg b m) : x = m := by
  unfold optMsg at h
  split at h
  · simpa using h
  · simp at h

/-- Every Jira-compliance error is one of the four compliance shapes. -/
theorem complianceErrors_shape (cfg : Config) (t : Table) (m : VMsg)
    (h : m ∈ complianceErrors cfg t) :
    (∃ a b, m = .summariesTooLong a b) ∨ (∃ a b, m = .descriptionsTooLong a b) ∨
      (∃ l, m = .invalidIssueTypes l) ∨ (∃ key, m = .invalidProjectKey key) := by
  unfold complianceErrors at h
  simp only [List.mem_append] at h
  rcases h with ((h | h) | h) | h
  · left; exact ⟨_, _, mem_optMsg h⟩
  · right; left; exact ⟨_, _, mem_optMsg h⟩
  · right; right; left; exact ⟨_, mem_optMsg h⟩
  · obtain ⟨key, -, hkey⟩ := List.mem_map.mp h
    right; right; right; exact ⟨key, hkey.symm⟩

theorem requiredEmpty_not_mem_compliance (cfg : Config) (t : Table) (f : String) (k : Nat) :
    VMsg.requiredEmpty f k ∉ complianceErrors cfg t := by
  intro h
  rcases complianceErrors_shape cfg t _ h with ⟨a, b, hm⟩ | ⟨a, b, hm⟩ | ⟨l, hm⟩ | ⟨key, hm⟩ <;>
    simp at hm

theorem requiredMissing_not_mem_compliance (cfg : Config) (t : Table) (f : String) :
    VMsg.requiredMissing f ∉ complianceErrors cfg t := by
  intro h
  rcases complianceErrors_shape cfg t _ h with ⟨a, b, hm⟩ | ⟨a, b, hm⟩ | ⟨l, hm⟩ | ⟨key, hm⟩ <;>
    simp at hm

theorem count_requiredFieldMsgs_ne (t : Table) (f field : String) (k : Nat) (hne : f ≠ field) :
    (requiredFieldMsgs t f).count (VMsg.requiredEmpty field k) = 0 := by
  rw [List.count_eq_zero]
  intro hmem
  unfold requiredFieldMsgs at hmem
  split at hmem
  · split at hmem
    · simp only [List.mem_singleton] at hmem
      exact hne (by injection hmem with h1 h2; exact h1.symm)
    · simp at hmem
  · simp only [List.mem_singleton] at hmem
    injection hmem

theorem count_requiredFieldMsgs_self (t : Table) (field : String) (k : Nat)
    (hcol : t.hasCol field = true)
    (hk : naCount t field + emptyStrCount t field = k) (hkpos : 0 < k) :
    (requiredFieldMsgs t field).count (VMsg.requiredEmpty field k) = 1 := by
  unfold requiredFieldMsgs
  unfold reqEmptyCount
  rw [if_pos hcol, hk, if_pos hkpos]
  simp

/-- The required-field errors contain the field's `requiredEmpty` entry as
many times as the field occurs in `required_fields`. -/
theorem count_requiredFieldErrors_flatten (t : Table) (field : String) (k : Nat)
    (hcol : t.hasCol field = true)
    (hk : naCount t field + emptyStrCount t field = k) (hkpos : 0 < k) :
    ∀ fields : List String,
      ((fields.map (requiredFieldMsgs t)).flatten).count (VMsg.requiredEmpty field k) =
        fields.count field := by
  intro fields
  induction fields with
  | nil => simp
  | cons g fs ih =>
    simp only [List.map_cons, List.flatten_cons, List.count_append, ih, List.count_cons]
    by_cases hg : g = field
    · subst hg
      rw [count_requiredFieldMsgs_self t g k hcol hk hkpos]
      simp [Nat.add_comm]
    · rw [count_requiredFieldMsgs_ne t g field k hg]
      simp [Ne.symm hg, hg]

/-- **C8** (confirmed).  For a name occurring (once) in `required_fields`:
absent from the output table's columns, `validate_output_data` records the
missing-field error and `is_valid` is false; present with `k > 0`
missing-or-empty values, the call records exactly one error entry for that
field carrying the count `k` (the number of missing plus empty-string
occurrences), and `is_valid` is false. -/
theorem claim8_required_field_errors (cfg : Config) (s : ValidatorState) (t : Table)
    (field : String)
    (_hwf : t.WF)
    (hcount : cfg.required_fields.count field = 1) :
    (t.hasCol field = false →
      VMsg.requiredMissing field ∈ (validate_output_data cfg s t).2.2.errors ∧
      (validate_output_data cfg s t).2.2.is_valid = false) ∧
    (t.hasCol field = true →
      ∀ k, naCount t field + emptyStrCount t field = k → 0 < k →
        (validate_output_data cfg s t).2.2.errors.count (VMsg.requiredEmpty field k) = 1 ∧
        (validate_output_data cfg s t).2.2.is_valid = false) := by
  have herr : (validate_output_data cfg s t).2.2.errors =
      requiredFieldErrors cfg t ++ complianceErrors cfg t := rfl
  have hval : (validate_output_data cfg s t).2.2.is_valid =
      (requiredFieldErrors cfg t ++ complianceErrors cfg t).isEmpty := rfl
  have hfieldmem : field ∈ cfg.required_fields := by
    have : 0 < cfg.required_fields.count field := by omega
    exact List.count_pos_iff.mp this
  constructor
  · intro habs
    have hmsgs : requiredFieldMsgs t field = [.requiredMissing field] := by
      unfold requiredFieldMsgs
      rw [habs]
      simp
    have hmem : VMsg.requiredMissing field ∈ requiredFieldErrors cfg t := by
      unfold requiredFieldErrors
      refine List.mem_flatten.mpr ⟨requiredFieldMsgs t field, ?_, ?_⟩
      · exact List.mem_map_of_mem (requiredFieldMsgs t) hfieldmem
      · rw [hmsgs]; simp
    constructor
    · rw [herr]
      exact List.mem_append_left _ hmem
    · rw [hval]
      have hne : requiredFieldErrors cfg t ++ complianceErrors cfg t ≠ [] :=
        List.ne_nil_of_mem (List.mem_append_left _ hmem)
      simpa [List.isEmpty_iff] using hne
  · intro hpres k hk hkpos
    have hcnt : (validate_output_data cfg s t).2.2.errors.count (VMsg.requiredEmpty field k)
        = 1 := by
      rw [herr, List.count_append]
      have h1 : (requiredFieldErrors cfg t).count (VMsg.requiredEmpty field k) = 1 := by
        unfold requiredFieldErrors
        rw [count_requiredFieldErrors_flatten t field k hpres hk hkpos cfg.required_fields,
          hcount]
      have h2 : (complianceErrors cfg t).count (VMsg.requiredEmpty field k) = 0 := by
        rw [List.count_eq_zero]
        exact requiredEmpty_not_mem_compliance cfg t field k
      rw [h1, h2]
    refine ⟨hcnt, ?_⟩
    have hmem : VMsg.requiredEmpty field k ∈ (validate_output_data cfg s t).2.2.errors := by
      have : 0 < (validate_output_data cfg s t).2.2.errors.count (VMsg.requiredEmpty field k) := by
        omega
      exact List.count_pos_iff.mp this
    rw [hval]
    have hne : requiredFieldErrors cfg t ++ complianceErrors cfg t ≠ [] := by
      rw [← herr]
      exact List.ne_nil_of_mem hmem
    simpa [List.isEmpty_iff] using hne

/-- Witness for C8: a required `Summary` column with one empty string and
one missing value among three rows yields exactly one error entry carrying
the count 2, and the result is invalid. -/
theorem claim8_witness :
    (validate_output_data cfgReqSummary ⟨[], []⟩ tSummary).2.2.errors.count
        (VMsg.requiredEmpty "Summary" 2) = 1 ∧
      (validate_output_data cfgReqSummary ⟨[], []⟩ tSummary).2.2.is_valid = false :=
  (claim8_required_field_errors cfgReqSummary ⟨[], []⟩ tSummary "Summary"
    (by decide) (by decide)).2 (by decide) 2 (by decide) (by decide)
